import Mathlib

/-!
Shallow embedding of the wd_zhuanhua document-conversion server
(src/document_converter.py, src/sse_manager.py, src/main.py) and proofs
about its job lifecycle, event publishing and SSE wire format.

Modelling conventions:
* Python dicts keyed by strings are embedded as maps `String → Option α`.
* `asyncio` tasks are embedded as explicit traces: the list of job states
  at (potential) suspension points, in order.  Mutations performed between
  two `await`s form one atomic block and contribute one state.
* External collaborators (the markdown renderer, file reading, PDF/DOCX
  builders) are abstracted as parameters of type `Except String String`:
  either the value they produce or the message of the exception they raise.
* Machine timestamps (`datetime.now()`) are irrelevant to every claim and
  are omitted from the records.
-/

/-- `DocumentConverter.supported_formats` (document_converter.py lines 33-40):
per-format read/write capabilities. -/
structure FormatCaps where
  read : Bool
  write : Bool
deriving DecidableEq, Repr

/-- The fixed supported-format table of `DocumentConverter.__init__`. -/
def supported_formats (f : String) : Option FormatCaps :=
  if f = "txt" then some ⟨true, true⟩
  else if f = "md" then some ⟨true, true⟩
  else if f = "html" then some ⟨true, true⟩
  else if f = "pdf" then some ⟨true, true⟩
  else if f = "docx" then some ⟨true, true⟩
  else if f = "doc" then some ⟨true, false⟩
  else none

/-- Job status strings of document_converter.py. -/
inductive JobStatus where
  | pending
  | running
  | completed
  | failed
deriving DecidableEq, Repr

/-- The result dict stored into `jobs[job_id]['result']`
(document_converter.py lines 116-127): inline `content` for text targets,
`file_path` for binary targets, plus a content type. -/
structure JobResult where
  success : Bool
  content : Option String
  file_path : Option String
  content_type : String
deriving DecidableEq, Repr

/-- One entry of `DocumentConverter.jobs` (document_converter.py lines 58-66;
`created_at` omitted: it is a wall-clock timestamp never read by the
properties below). -/
structure Job where
  status : JobStatus
  progress : Nat
  source_format : String
  target_format : String
  error : Option String
  result : Option JobResult
deriving DecidableEq, Repr

/-- The `jobs` dict, keyed by job id. -/
abbrev JobMap : Type := String → Option Job

/-- The job record `convert_async` inserts (document_converter.py lines 58-66). -/
def mkPendingJob (sf tf : String) : Job :=
  { status := JobStatus.pending, progress := 0, source_format := sf,
    target_format := tf, error := none, result := none }

/-- `DocumentConverter.convert_async` (document_converter.py lines 47-71):
generates a job id (here a parameter), stores a pending job record, schedules
`_convert_task` and returns the id.  It performs no format validation. -/
def convert_async (jobs : JobMap) (job_id sf tf : String) : JobMap × String :=
  (fun k => if k = job_id then some (mkPendingJob sf tf) else jobs k, job_id)

/-- The format validation performed inside `_convert_task`
(document_converter.py lines 87-92), including the exception messages. -/
def validate (sf tf : String) : Except String Unit :=
  match supported_formats sf with
  | none => Except.error ("Unsupported source format: " ++ sf)
  | some _ =>
    match supported_formats tf with
    | none => Except.error ("Unsupported target format: " ++ tf)
    | some caps =>
      if caps.write then Except.ok () else Except.error ("Cannot write to format: " ++ tf)

/-- `DocumentConverter._get_content_type` (document_converter.py lines 290-299). -/
def get_content_type (f : String) : String :=
  if f = "txt" then "text/plain"
  else if f = "md" then "text/markdown"
  else if f = "html" then "text/html"
  else if f = "pdf" then "application/pdf"
  else if f = "docx" then "application/vnd.openxmlformats-officedocument.wordprocessingml.document"
  else "application/octet-stream"

/-- The `except` handler of `_convert_task` (document_converter.py lines
132-135): status becomes `failed`, the exception message is captured,
progress and result are left as they were. -/
def failWith (j : Job) (msg : String) : Job :=
  { j with status := JobStatus.failed, error := some msg }

/-- The completion block of `_convert_task` (document_converter.py lines
113-130): result stored, status `completed`, progress 100, all in one
atomic block (no `await` separates them). -/
def completeJob (j : Job) (r : JobResult) : Job :=
  { j with status := JobStatus.completed, progress := 100, result := some r }

/-- The progress-update mutations of `_convert_task` (lines 83-84, 94, 105,
110): status `running`, progress set to the given checkpoint. -/
def runningJob (sf tf : String) (p : Nat) : Job :=
  { mkPendingJob sf tf with status := JobStatus.running, progress := p }

/-- Result dict for binary targets (document_converter.py lines 116-120). -/
def binResult (path tf : String) : JobResult :=
  { success := true, content := none, file_path := some path,
    content_type := get_content_type tf }

/-- Result dict for text targets (document_converter.py lines 123-127). -/
def txtResult (r tf : String) : JobResult :=
  { success := true, content := some r, file_path := none,
    content_type := get_content_type tf }

/-- `DocumentConverter._convert_task` (document_converter.py lines 73-135) as
the ordered list of job states observable at suspension points, from the
pending record inserted by `convert_async` to the terminal state.
`use_file` says whether a `file_path` was passed; `read_res`, `conv_res` and
`save_res` are the outcomes of the awaited collaborators `_read_file`,
`_convert_content` and `_save_binary_result`.  Code blocks between two
`await`s mutate without interleaving, so each contributes one state; the
Python truthiness test `if not source_content` fails both `None` and the
empty string, producing the "No content to convert" error. -/
def convert_task_trace (sf tf : String) (content : Option String) (use_file : Bool)
    (read_res conv_res save_res : Except String String) : List Job :=
  let j0 := mkPendingJob sf tf
  let j10 := { j0 with status := JobStatus.running, progress := 10 }
  match validate sf tf with
  | Except.error msg => [j0, failWith j10 msg]
  | Except.ok _ =>
    let j30 := { j0 with status := JobStatus.running, progress := 30 }
    let pre : List Job := if use_file then [j0, j30] else [j0]
    let srcRes : Except String String :=
      if use_file then read_res else Except.ok (content.getD "")
    match srcRes with
    | Except.error msg => pre ++ [failWith j30 msg]
    | Except.ok s =>
      if s = "" then pre ++ [failWith j30 "No content to convert"]
      else
        let j60 := { j0 with status := JobStatus.running, progress := 60 }
        match conv_res with
        | Except.error msg => pre ++ [j60, failWith j60 msg]
        | Except.ok r =>
          let j90 := { j0 with status := JobStatus.running, progress := 90 }
          if tf = "pdf" ∨ tf = "docx" then
            match save_res with
            | Except.error msg => pre ++ [j60, j90, failWith j90 msg]
            | Except.ok path => pre ++ [j60, j90, completeJob j90 (binResult path tf)]
          else pre ++ [j60, completeJob j90 (txtResult r tf)]

/-- `DocumentConverter._convert_content` (document_converter.py lines
174-183).  The intermediate-format passes `_to_intermediate` and
`_from_intermediate` call external rendering libraries, so they are
abstracted as the parameters `to_inter` and `from_inter`; the identity
short-circuit on equal formats is taken verbatim from line 176. -/
def convert_content (to_inter : String → String → String)
    (from_inter : String → String → String) (c sf tf : String) : String :=
  if sf = tf then c
  else from_inter (to_inter c sf) tf

/-- `DocumentConverter.cleanup_job` (document_converter.py lines 333-343) as
its effect on the jobs dict: delete the entry when present, do nothing
otherwise.  The best-effort unlink of a temporary result file is an external
side effect with no influence on the dict. -/
def cleanup_job (m : JobMap) (jid : String) : JobMap :=
  match m jid with
  | some _ => fun k => if k = jid then none else m k
  | none => m

/-- Outcome of `DocumentConverter.wait_for_completion`
(document_converter.py lines 312-331): either the job's result dict is
returned as-is (`res`), or a dict with `success: False` and the given
`error` value is returned (`fail`). -/
inductive WaitOutcome where
  | res (r : Option JobResult)
  | fail (error : Option String)
deriving DecidableEq, Repr

/-- The polling loop of `wait_for_completion`, one unit of `elapsed` per
`asyncio.sleep(0.5)` tick.  `jobsAt n` is the jobs dict as seen at the n-th
poll (the background task may have advanced it between polls).  Check
order follows the source: unknown id first, then terminal states, then the
`elapsed > timeout` deadline, else sleep and re-poll. -/
def wait_go (jobsAt : Nat → JobMap) (job_id : String) (timeout elapsed : Nat) :
    WaitOutcome :=
  match jobsAt elapsed job_id with
  | none => WaitOutcome.fail (some "Job not found")
  | some job =>
    if job.status = JobStatus.completed then WaitOutcome.res job.result
    else if job.status = JobStatus.failed then WaitOutcome.fail job.error
    else if h : timeout < elapsed then WaitOutcome.fail (some "Conversion timeout")
    else wait_go jobsAt job_id timeout (elapsed + 1)
termination_by timeout + 1 - elapsed
decreasing_by simp_wf; omega

/-- `DocumentConverter.wait_for_completion` entered at elapsed time 0. -/
def wait_for_completion (jobsAt : Nat → JobMap) (job_id : String) (timeout : Nat) :
    WaitOutcome :=
  wait_go jobsAt job_id timeout 0

/-!  SSE manager model (src/sse_manager.py). -/

/-- The `data` dict of an `SSEEvent`: its `type` tag plus the remaining
key/value pairs (values embedded as strings; only the `type` tag is
inspected by the properties below). -/
structure EventPayload where
  type : String
  fields : List (String × String)
deriving DecidableEq, Repr

/-- `SSEEvent` (sse_manager.py lines 19-30): SSE event name, data payload,
optional id and retry hint (`timestamp` omitted, a wall-clock value). -/
structure SSEEvent where
  event : String
  payload : EventPayload
  id : Option String := none
  retry : Option Nat := none
deriving DecidableEq, Repr

/-- Mutable state of one `SSEConnection` (sse_manager.py lines 33-72):
its FIFO queue of pending events and the `connected` flag. -/
structure SSEConnState where
  queue : List SSEEvent
  connected : Bool
deriving DecidableEq, Repr

/-- The `SSEManager.connections` dict, keyed by connection id. -/
abbrev ConnMap : Type := String → Option SSEConnState

/-- `SSEConnection.send_event` (sse_manager.py lines 43-50): enqueue only
while `connected`; a dead connection's queue is left unchanged. -/
def conn_send_event (c : SSEConnState) (e : SSEEvent) : SSEConnState :=
  if c.connected then { c with queue := c.queue ++ [e] } else c

/-- `SSEManager.send_event` (sse_manager.py lines 153-176) as its effect on
the connections dict: with a target id, enqueue onto that connection only
(a warning is logged and the event dropped when the id is unknown); with no
id, enqueue onto every registered connection. -/
def send_event (m : ConnMap) (e : SSEEvent) (cid : Option String) : ConnMap :=
  match cid with
  | some id =>
    match m id with
    | some c => fun k => if k = id then some (conn_send_event c e) else m k
    | none => m
  | none => fun k => (m k).map (fun c => conn_send_event c e)

/-- `SSEManager.disconnect` (sse_manager.py lines 145-151) as its effect on
the connections dict: mark dead and delete when present, no-op otherwise. -/
def disconnect (m : ConnMap) (cid : String) : ConnMap :=
  match m cid with
  | some _ => fun k => if k = cid then none else m k
  | none => m

/-- The enumerated kind tags of the spec's Event data model; in the source
these are the `type` values of the event payload dicts, the tags
`client_example.py` dispatches on. -/
def event_kinds : List String :=
  ["connected", "heartbeat", "conversion_started", "conversion_progress",
   "conversion_complete", "conversion_error"]

/-- The welcome event `create_connection` enqueues (sse_manager.py lines
133-141): SSE event name `connection`, payload type `connected`. -/
def welcome_event (cid : String) : SSEEvent :=
  { event := "connection",
    payload := { type := "connected",
                 fields := [("connection_id", cid),
                            ("message", "SSE connection established")] } }

/-- The event built by `send_heartbeat` (sse_manager.py lines 178-189). -/
def heartbeat_event (ts : String) : SSEEvent :=
  { event := "heartbeat",
    payload := { type := "heartbeat", fields := [("timestamp", ts)] } }

/-- The event built by `send_conversion_progress` (sse_manager.py lines
191-211). -/
def conversion_progress_event (jid : String) (progress : Nat) (st ts : String) :
    SSEEvent :=
  { event := "progress",
    payload := { type := "conversion_progress",
                 fields := [("job_id", jid), ("progress", toString progress),
                            ("status", st), ("timestamp", ts)] } }

/-- The event built by `send_conversion_complete` (sse_manager.py lines
213-231), its `result` sub-dict abstracted as a string. -/
def conversion_complete_event (jid result ts : String) : SSEEvent :=
  { event := "complete",
    payload := { type := "conversion_complete",
                 fields := [("job_id", jid), ("result", result),
                            ("timestamp", ts)] } }

/-- The event built by `send_conversion_error` (sse_manager.py lines
233-251). -/
def conversion_error_event (jid err ts : String) : SSEEvent :=
  { event := "error",
    payload := { type := "conversion_error",
                 fields := [("job_id", jid), ("error", err),
                            ("timestamp", ts)] } }

/-- The single event `handle_convert_document` publishes after submitting a
job (main.py lines 169-174), via `send_event` with its default SSE event
name `message`. -/
def conversion_started_event (jid sf tf : String) : SSEEvent :=
  { event := "message",
    payload := { type := "conversion_started",
                 fields := [("job_id", jid), ("source_format", sf),
                            ("target_format", tf)] } }

/-- The events published through the SSE manager during one run of
`_convert_task`.  The body of `_convert_task` (document_converter.py lines
73-135) holds no reference to the SSE manager and calls none of its senders
— `send_conversion_progress`, `send_conversion_complete` and
`send_conversion_error` are defined in sse_manager.py but never invoked
anywhere in the repository — so the published list is empty for every run. -/
def convert_task_published_events (sf tf : String) (content : Option String)
    (use_file : Bool) (read_res conv_res save_res : Except String String) :
    List SSEEvent := []

/-- The list of events published by `handle_convert_document` (main.py
lines 147-184): exactly the one `conversion_started`-typed broadcast. -/
def handle_convert_document_events (jid sf tf : String) : List SSEEvent :=
  [conversion_started_event jid sf tf]

/-- Python truthiness of `event.id` (an optional string): `None` and the
empty string are falsy. -/
def truthy_str (s : Option String) : Bool := !(s.getD "" == "")

/-- Python truthiness of `event.retry` (an optional int): `None` and 0 are
falsy. -/
def truthy_nat (n : Option Nat) : Bool := !(n.getD 0 == 0)

/-- `SSEManager._format_sse_event` (sse_manager.py lines 304-325) as the
`lines` list it accumulates before joining: optional id line, event line,
optional retry line, one `data:` line per line of the JSON-serialized
payload (`dataStr`, which `json.dumps` produces without raw newlines), and
the two empty strings that terminate the block. -/
def format_sse_lines (i : Option String) (ev : String) (retry : Option Nat)
    (dataStr : String) : List String :=
  let l0 : List String := []
  let l1 := if truthy_str i then l0 ++ ["id: " ++ i.getD ""] else l0
  let l2 := if ev ≠ "" then l1 ++ ["event: " ++ ev] else l1
  let l3 := if truthy_nat retry then l2 ++ ["retry: " ++ toString (retry.getD 0)] else l2
  let l4 := l3 ++ (dataStr.splitOn "\n").map (fun s => "data: " ++ s)
  l4 ++ ["", ""]

/-- The wire block returned by `_format_sse_event`: the lines joined by
newlines, so the block ends in a blank line. -/
def format_sse_event (i : Option String) (ev : String) (retry : Option Nat)
    (dataStr : String) : String :=
  String.intercalate "\n" (format_sse_lines i ev retry dataStr)

/-- The keep-alive filler `event_stream` yields when no event arrives
within the bounded wait (sse_manager.py line 297). -/
def keep_alive_chunk : String := ": keep-alive\n\n"

/-- `_format_sse_event` applied to an event: the `id:`, `event:` and
`retry:` lines are drawn from the event's own `id`, `event` and `retry`
fields (sse_manager.py lines 308-315); `dataStr` is the JSON serialization
of its payload, produced by `json.dumps` (abstracted here). -/
def format_sse_event_of (e : SSEEvent) (dataStr : String) : List String :=
  format_sse_lines e.id e.event e.retry dataStr

/-- A sample event with id and retry hints set, to exercise the wire
formatter on a concrete input. -/
def sample_wire_event : SSEEvent :=
  { event := "message", payload := { type := "conversion_started", fields := [] },
    id := some "7", retry := some 3000 }

/-!  Theorems. -/

/-- Claim C10: for every format supported for reading and every non-empty
content, a conversion with equal source and target formats returns the
content unchanged; `_convert_content` short-circuits before the
intermediate HTML passes, whatever those passes compute, so the round trip
is the identity even for formats whose intermediate conversion is lossy. -/
theorem round_trip_identity (to_inter from_inter : String → String → String)
    (c f : String) (hread : ∃ caps, supported_formats f = some caps ∧ caps.read = true)
    (hc : c ≠ "") :
    convert_content to_inter from_inter c f f = c := by
  simp [convert_content]

theorem round_trip_identity_witness :
    (∃ caps, supported_formats "md" = some caps ∧ caps.read = true) ∧
    ("# Hi" : String) ≠ "" ∧
    convert_content (fun s _ => s) (fun s _ => s) "# Hi" "md" "md" = "# Hi" :=
  ⟨⟨⟨true, true⟩, rfl, rfl⟩, by decide,
    round_trip_identity (fun s _ => s) (fun s _ => s) "# Hi" "md"
      ⟨⟨true, true⟩, rfl, rfl⟩ (by decide)⟩

/-- Claim C7: `unsubscribe` (`SSEManager.disconnect`) and
`DocumentConverter.cleanup_job` are idempotent: a second call on the same
id, or a call on an id that was never registered, leaves the registry
unchanged, and both functions are total (no error is raised — the
membership guard replaces Python's `KeyError`). -/
theorem unsubscribe_cleanup_idempotent (cm : ConnMap) (jm : JobMap)
    (cid jid : String) :
    disconnect (disconnect cm cid) cid = disconnect cm cid ∧
    (cm cid = none → disconnect cm cid = cm) ∧
    cleanup_job (cleanup_job jm jid) jid = cleanup_job jm jid ∧
    (jm jid = none → cleanup_job jm jid = jm) := by
  refine ⟨?_, ?_, ?_, ?_⟩
  · cases h : cm cid with
    | none => simp [disconnect, h]
    | some c => simp [disconnect, h]
  · intro h; simp [disconnect, h]
  · cases h : jm jid with
    | none => simp [cleanup_job, h]
    | some j => simp [cleanup_job, h]
  · intro h; simp [cleanup_job, h]

theorem unsubscribe_cleanup_idempotent_witness :
    ((fun _ => none : ConnMap) "c1" = none) ∧
    ((fun _ => none : JobMap) "j1" = none) ∧
    disconnect (fun _ => none) "c1" = (fun _ => none) ∧
    cleanup_job (fun _ => none) "j1" = (fun _ => none) :=
  ⟨rfl, rfl,
    (unsubscribe_cleanup_idempotent (fun _ => none) (fun _ => none) "c1" "j1").2.1 rfl,
    (unsubscribe_cleanup_idempotent (fun _ => none) (fun _ => none) "c1" "j1").2.2.2 rfl⟩

/-- Claim C3: every event the system constructs carries a kind tag (the
payload's `type` value, the tag `client_example.py` dispatches on) drawn
from the enumerated set; in particular the welcome event enqueued on
subscribe is tagged `connected`, progress updates `conversion_progress`,
and terminal notifications `conversion_complete` / `conversion_error`. -/
theorem event_kinds_enumerated (cid ts jid st result err sf tf : String)
    (progress : Nat) :
    ((welcome_event cid).payload.type = "connected" ∧
      (welcome_event cid).payload.type ∈ event_kinds) ∧
    ((heartbeat_event ts).payload.type = "heartbeat" ∧
      (heartbeat_event ts).payload.type ∈ event_kinds) ∧
    ((conversion_progress_event jid progress st ts).payload.type = "conversion_progress" ∧
      (conversion_progress_event jid progress st ts).payload.type ∈ event_kinds) ∧
    ((conversion_complete_event jid result ts).payload.type = "conversion_complete" ∧
      (conversion_complete_event jid result ts).payload.type ∈ event_kinds) ∧
    ((conversion_error_event jid err ts).payload.type = "conversion_error" ∧
      (conversion_error_event jid err ts).payload.type ∈ event_kinds) ∧
    ((conversion_started_event jid sf tf).payload.type = "conversion_started" ∧
      (conversion_started_event jid sf tf).payload.type ∈ event_kinds) := by
  refine ⟨⟨rfl, ?_⟩, ⟨rfl, ?_⟩, ⟨rfl, ?_⟩, ⟨rfl, ?_⟩, ⟨rfl, ?_⟩, ⟨rfl, ?_⟩⟩ <;>
    simp [welcome_event, heartbeat_event, conversion_progress_event,
      conversion_complete_event, conversion_error_event,
      conversion_started_event, event_kinds]

/-- Claim C8: publishing with a target connection id enqueues the event
onto that connection only, an unknown target id leaves the registry
unchanged (logged and dropped, no exception), publishing with no id
enqueues onto every registered connection, and enqueuing onto a connection
marked dead leaves its queue unchanged. -/
theorem publish_targeted_and_broadcast (m : ConnMap) (e : SSEEvent) (id : String) :
    (∀ c, m id = some c →
        send_event m e (some id) id = some (conn_send_event c e) ∧
        ∀ k, k ≠ id → send_event m e (some id) k = m k) ∧
    (m id = none → send_event m e (some id) = m) ∧
    (∀ k, send_event m e none k = (m k).map (fun c => conn_send_event c e)) ∧
    (∀ c, c.connected = false → conn_send_event c e = c) := by
  refine ⟨?_, ?_, ?_, ?_⟩
  · intro c h
    constructor
    · simp [send_event, h]
    · intro k hk; simp [send_event, h, hk]
  · intro h; simp [send_event, h]
  · intro k; simp [send_event]
  · intro c h; simp [conn_send_event, h]

theorem publish_targeted_and_broadcast_witness :
    ((fun k => if k = "c1" then some ⟨[], true⟩ else none : ConnMap) "c1"
        = some (⟨[], true⟩ : SSEConnState)) ∧
    ((fun k => if k = "c1" then some ⟨[], true⟩ else none : ConnMap) "c2" = none) ∧
    ((⟨[], false⟩ : SSEConnState).connected = false) ∧
    send_event (fun k => if k = "c1" then some ⟨[], true⟩ else none)
        (welcome_event "w") (some "c1") "c1"
      = some (conn_send_event ⟨[], true⟩ (welcome_event "w")) ∧
    send_event (fun k => if k = "c1" then some ⟨[], true⟩ else none)
        (welcome_event "w") (some "c2")
      = (fun k => if k = "c1" then some ⟨[], true⟩ else none) ∧
    conn_send_event ⟨[], false⟩ (welcome_event "w") = ⟨[], false⟩ :=
  ⟨by decide, by decide, rfl,
    ((publish_targeted_and_broadcast
        (fun k => if k = "c1" then some ⟨[], true⟩ else none)
        (welcome_event "w") "c1").1 ⟨[], true⟩ (by decide)).1,
    (publish_targeted_and_broadcast
        (fun k => if k = "c1" then some ⟨[], true⟩ else none)
        (welcome_event "w") "c2").2.1 (by decide),
    (publish_targeted_and_broadcast
        (fun k => if k = "c1" then some ⟨[], true⟩ else none)
        (welcome_event "w") "c1").2.2.2 ⟨[], false⟩ rfl⟩

theorem truthy_str_of_ne {s : String} (h : s ≠ "") : truthy_str (some s) = true := by
  simp [truthy_str, h]

theorem truthy_nat_of_ne {n : Nat} (h : n ≠ 0) : truthy_nat (some n) = true := by
  simp [truthy_nat, h]

/-- Characterization of the `lines` list accumulated by
`_format_sse_event`, for non-falsy id and retry values (Python truthiness
drops `id = ""` and `retry = 0`). -/
theorem format_sse_lines_shape (i : Option String) (ev : String) (retry : Option Nat)
    (dataStr : String) (hev : ev ≠ "") (hid : i ≠ some "") (hr : retry ≠ some 0) :
    format_sse_lines i ev retry dataStr =
      i.elim [] (fun s => ["id: " ++ s]) ++
      ["event: " ++ ev] ++
      retry.elim [] (fun r => ["retry: " ++ toString r]) ++
      (dataStr.splitOn "\n").map (fun s => "data: " ++ s) ++ ["", ""] ∧
    format_sse_event i ev retry dataStr =
      String.intercalate "\n" (format_sse_lines i ev retry dataStr) ∧
    keep_alive_chunk = ": keep-alive" ++ "\n" ++ "\n" := by
  refine ⟨?_, rfl, rfl⟩
  cases i with
  | none =>
    cases retry with
    | none => simp [format_sse_lines, truthy_str, truthy_nat, hev]
    | some r =>
      have hr' : r ≠ 0 := fun h => hr (by rw [h])
      simp [format_sse_lines, truthy_str, truthy_nat_of_ne hr', hev]
  | some s =>
    have hs : s ≠ "" := fun h => hid (by rw [h])
    cases retry with
    | none => simp [format_sse_lines, truthy_str_of_ne hs, truthy_nat, hev]
    | some r =>
      have hr' : r ≠ 0 := fun h => hr (by rw [h])
      simp [format_sse_lines, truthy_str_of_ne hs, truthy_nat_of_ne hr', hev]

/-- Claim C9 counterexample: the `event:` line of the wire block carries
the event's SSE event-name field, not its kind tag: the welcome event has
kind `connected` yet its block contains the line `event: connection`, and
no `event: connected` line appears in it. -/
theorem wire_event_line_not_kind :
    (welcome_event "c1").payload.type = "connected" ∧
    format_sse_event_of (welcome_event "c1") "d"
      = ["event: connection"] ++
        (("d" : String).splitOn "\n").map (fun s => "data: " ++ s) ++ ["", ""] ∧
    "event: connection" ∈ format_sse_event_of (welcome_event "c1") "d" ∧
    "event: connected" ∉ format_sse_event_of (welcome_event "c1") "d" := by
  have heq : format_sse_event_of (welcome_event "c1") "d"
      = ["event: connection"] ++
        (("d" : String).splitOn "\n").map (fun s => "data: " ++ s) ++ ["", ""] := by
    have h := (format_sse_lines_shape none "connection" none "d"
        (by decide) (by decide) (by decide)).1
    simpa [format_sse_event_of, welcome_event] using h
  refine ⟨rfl, heq, ?_, ?_⟩
  · rw [heq]
    simp
  · rw [heq]
    intro hmem
    rcases List.mem_append.mp hmem with h1 | h2
    · rcases List.mem_append.mp h1 with h3 | h4
      · simp at h3
      · obtain ⟨s, hs, hsx⟩ := List.mem_map.mp h4
        have hchars := congrArg String.data hsx
        simp [String.data_append] at hchars
    · simp at h2

/-- Claim C9 amended: for every event, the wire-formatted block contains
an `id:` line only when the id is present, an `event:` line carrying the
event's SSE event-name field (`connection` / `heartbeat` / `progress` /
`complete` / `error` / `message` for this program's events — not the
payload kind tag), a `retry:` line only when the retry hint is present,
one `data:` line per line of the JSON-serialized payload, and the
terminating blank line; when no pending event arrives before the bounded
wait elapses, the stream yields exactly the comment line `: keep-alive`
followed by a blank line.  Hypotheses: the event name is non-empty (true
of every name the system uses) and a present id or retry hint is
non-falsy (Python truthiness drops `id = ""` and `retry = 0`). -/
theorem sse_wire_format_event (e : SSEEvent) (dataStr : String)
    (hev : e.event ≠ "") (hid : e.id ≠ some "") (hr : e.retry ≠ some 0) :
    format_sse_event_of e dataStr =
      e.id.elim [] (fun s => ["id: " ++ s]) ++
      ["event: " ++ e.event] ++
      e.retry.elim [] (fun r => ["retry: " ++ toString r]) ++
      (dataStr.splitOn "\n").map (fun s => "data: " ++ s) ++ ["", ""] ∧
    keep_alive_chunk = ": keep-alive" ++ "\n" ++ "\n" :=
  ⟨(format_sse_lines_shape e.id e.event e.retry dataStr hev hid hr).1, rfl⟩

theorem sse_wire_format_event_witness :
    sample_wire_event.event ≠ "" ∧
    sample_wire_event.id ≠ some "" ∧
    sample_wire_event.retry ≠ some 0 ∧
    format_sse_event_of sample_wire_event "payload" =
      ["id: 7"] ++ ["event: message"] ++ ["retry: 3000"] ++
      (("payload" : String).splitOn "\n").map (fun s => "data: " ++ s) ++ ["", ""] :=
  ⟨by decide, by decide, by decide,
    (sse_wire_format_event sample_wire_event "payload"
      (by decide) (by decide) (by decide)).1⟩

theorem wait_go_timeout_aux (jobsAt : Nat → JobMap) (jid : String) (timeout : Nat) :
    ∀ d elapsed, timeout + 1 - elapsed ≤ d → elapsed ≤ timeout + 1 →
    (∀ n, elapsed ≤ n → n ≤ timeout + 1 → ∃ job, jobsAt n jid = some job ∧
      job.status ≠ JobStatus.completed ∧ job.status ≠ JobStatus.failed) →
    wait_go jobsAt jid timeout elapsed = WaitOutcome.fail (some "Conversion timeout") := by
  intro d
  induction d with
  | zero =>
    intro elapsed hd he hnt
    have heq : timeout < elapsed := by omega
    obtain ⟨job, hj, hc, hf⟩ := hnt elapsed le_rfl he
    rw [wait_go.eq_def, hj]
    simp [hc, hf, heq]
  | succ k ih =>
    intro elapsed hd he hnt
    obtain ⟨job, hj, hc, hf⟩ := hnt elapsed le_rfl he
    by_cases hlt : timeout < elapsed
    · rw [wait_go.eq_def, hj]
      simp [hc, hf, hlt]
    · rw [wait_go.eq_def, hj]
      simp only [hc, hf, hlt, if_false, dif_neg, not_false_iff]
      exact ih (elapsed + 1) (by omega) (by omega)
        (fun n hn1 hn2 => hnt n (by omega) hn2)

/-- Claim C6: `wait_for_completion` returns the not-found failure on its
first check for an unknown job id, for every timeout (so immediately,
without consuming the deadline); for a job already terminal it returns the
job's result (completed) or its captured error (failed); and for a job that
stays non-terminal past the deadline it returns the fixed
"Conversion timeout" failure, produced by the deadline branch rather than
from the job's error field. -/
theorem await_completion_outcomes (jobsAt : Nat → JobMap) (jid : String)
    (timeout : Nat) :
    (jobsAt 0 jid = none →
      wait_for_completion jobsAt jid timeout = WaitOutcome.fail (some "Job not found")) ∧
    (∀ job, jobsAt 0 jid = some job → job.status = JobStatus.completed →
      wait_for_completion jobsAt jid timeout = WaitOutcome.res job.result) ∧
    (∀ job, jobsAt 0 jid = some job → job.status = JobStatus.failed →
      wait_for_completion jobsAt jid timeout = WaitOutcome.fail job.error) ∧
    ((∀ n, n ≤ timeout + 1 → ∃ job, jobsAt n jid = some job ∧
        job.status ≠ JobStatus.completed ∧ job.status ≠ JobStatus.failed) →
      wait_for_completion jobsAt jid timeout = WaitOutcome.fail (some "Conversion timeout")) := by
  refine ⟨?_, ?_, ?_, ?_⟩
  · intro h
    rw [wait_for_completion, wait_go.eq_def, h]
  · intro job h hst
    rw [wait_for_completion, wait_go.eq_def, h]
    simp [hst]
  · intro job h hst
    rw [wait_for_completion, wait_go.eq_def, h]
    have : job.status ≠ JobStatus.completed := by rw [hst]; intro hh; cases hh
    simp [hst, this]
  · intro hnt
    exact wait_go_timeout_aux jobsAt jid timeout (timeout + 1) 0 (by omega) (by omega)
      (fun n _ hn2 => hnt n hn2)

theorem await_completion_outcomes_witness :
    ((fun _ _ => none : Nat → JobMap) 0 "j" = none) ∧
    wait_for_completion (fun _ _ => none) "j" 9 = WaitOutcome.fail (some "Job not found") ∧
    ((fun _ _ => some (completeJob (mkPendingJob "md" "html") (txtResult "x" "html")) :
        Nat → JobMap) 0 "j"
      = some (completeJob (mkPendingJob "md" "html") (txtResult "x" "html"))) ∧
    wait_for_completion
        (fun _ _ => some (completeJob (mkPendingJob "md" "html") (txtResult "x" "html"))) "j" 9
      = WaitOutcome.res (completeJob (mkPendingJob "md" "html") (txtResult "x" "html")).result ∧
    wait_for_completion (fun _ _ => some (failWith (mkPendingJob "md" "html") "boom")) "j" 9
      = WaitOutcome.fail (failWith (mkPendingJob "md" "html") "boom").error ∧
    wait_for_completion (fun _ _ => some (mkPendingJob "md" "html")) "j" 1
      = WaitOutcome.fail (some "Conversion timeout") :=
  ⟨rfl,
    (await_completion_outcomes (fun _ _ => none) "j" 9).1 rfl,
    rfl,
    (await_completion_outcomes
        (fun _ _ => some (completeJob (mkPendingJob "md" "html") (txtResult "x" "html"))) "j" 9).2.1
      (completeJob (mkPendingJob "md" "html") (txtResult "x" "html")) rfl rfl,
    (await_completion_outcomes
        (fun _ _ => some (failWith (mkPendingJob "md" "html") "boom")) "j" 9).2.2.1
      (failWith (mkPendingJob "md" "html") "boom") rfl rfl,
    (await_completion_outcomes (fun _ _ => some (mkPendingJob "md" "html")) "j" 1).2.2.2
      (fun n _ => ⟨mkPendingJob "md" "html", rfl, by decide, by decide⟩)⟩

/-- Claim C4: along every run of the conversion task, the progress values
observable through successive status snapshots are non-decreasing; terminal
states occur only as the last snapshot (so no field, progress included,
changes after a terminal state is reached); a run ending `completed` ends
with progress 100; and the exception handler leaves `progress` untouched,
so a `failed` job keeps the value last recorded before the failure. -/
theorem progress_monotone_and_terminal (sf tf : String) (content : Option String)
    (use_file : Bool) (read_res conv_res save_res : Except String String) :
    List.Chain' (fun a b => a.progress ≤ b.progress)
      (convert_task_trace sf tf content use_file read_res conv_res save_res) ∧
    (∀ j ∈ (convert_task_trace sf tf content use_file read_res conv_res save_res).dropLast,
        j.status = JobStatus.pending ∨ j.status = JobStatus.running) ∧
    (∀ j, (convert_task_trace sf tf content use_file read_res conv_res save_res).getLast?
        = some j → j.status = JobStatus.completed → j.progress = 100) ∧
    (∀ (j : Job) (msg : String), (failWith j msg).progress = j.progress) := by
  unfold convert_task_trace
  cases hv : validate sf tf with
  | error msg => simp [mkPendingJob, failWith]
  | ok u =>
    cases use_file with
    | false =>
      by_cases hc : content.getD "" = ""
      · simp [hc, mkPendingJob, failWith]
      · simp only [Bool.false_eq_true, if_false, hc]
        cases conv_res with
        | error msg => simp [hc, mkPendingJob, failWith]
        | ok r =>
          by_cases hb : tf = "pdf" ∨ tf = "docx"
          · cases save_res with
            | error msg => simp [hc, hb, mkPendingJob, failWith, completeJob]
            | ok path => simp [hc, hb, mkPendingJob, failWith, completeJob]
          · simp [hc, hb, mkPendingJob, failWith, completeJob]
    | true =>
      cases read_res with
      | error msg => simp [mkPendingJob, failWith]
      | ok s =>
        by_cases hc : s = ""
        · simp [hc, mkPendingJob, failWith]
        · simp only [Bool.true_eq_false, if_true, hc]
          cases conv_res with
          | error msg => simp [hc, mkPendingJob, failWith]
          | ok r =>
            by_cases hb : tf = "pdf" ∨ tf = "docx"
            · cases save_res with
              | error msg => simp [hc, hb, mkPendingJob, failWith, completeJob]
              | ok path => simp [hc, hb, mkPendingJob, failWith, completeJob]
            · simp [hc, hb, mkPendingJob, failWith, completeJob]

theorem progress_monotone_and_terminal_witness :
    (convert_task_trace "md" "html" (some "# Hi") false (Except.ok "") (Except.ok "h")
        (Except.ok "p")).getLast?
      = some (completeJob (runningJob "md" "html" 90) (txtResult "h" "html")) ∧
    (completeJob (runningJob "md" "html" 90) (txtResult "h" "html")).status
      = JobStatus.completed ∧
    (completeJob (runningJob "md" "html" 90) (txtResult "h" "html")).progress = 100 ∧
    (failWith (mkPendingJob "md" "doc") "boom").progress
      = (mkPendingJob "md" "doc").progress :=
  ⟨by decide, rfl,
    (progress_monotone_and_terminal "md" "html" (some "# Hi") false (Except.ok "")
        (Except.ok "h") (Except.ok "p")).2.2.1
      (completeJob (runningJob "md" "html" 90) (txtResult "h" "html")) (by decide) rfl,
    (progress_monotone_and_terminal "md" "html" (some "# Hi") false (Except.ok "")
        (Except.ok "h") (Except.ok "p")).2.2.2 (mkPendingJob "md" "doc") "boom"⟩

/-- Claim C5: at every observable snapshot of every run of the conversion
task, `error` is present iff the status is `failed` and `result` is present
iff the status is `completed` (hence they are mutually exclusive and both
absent while the job is non-terminal); and a terminal state occurs only as
the last snapshot, so no field of a terminal job mutates further — the only
later change is deletion through `cleanup_job`. -/
theorem error_result_exclusive (sf tf : String) (content : Option String)
    (use_file : Bool) (read_res conv_res save_res : Except String String) :
    (∀ j ∈ convert_task_trace sf tf content use_file read_res conv_res save_res,
      (j.error ≠ none ↔ j.status = JobStatus.failed) ∧
      (j.result ≠ none ↔ j.status = JobStatus.completed)) ∧
    (∀ j ∈ (convert_task_trace sf tf content use_file read_res conv_res save_res).dropLast,
      j.error = none ∧ j.result = none ∧
      (j.status = JobStatus.pending ∨ j.status = JobStatus.running)) := by
  unfold convert_task_trace
  cases hv : validate sf tf with
  | error msg => simp [mkPendingJob, failWith]
  | ok u =>
    cases use_file with
    | false =>
      by_cases hc : content.getD "" = ""
      · simp [hc, mkPendingJob, failWith]
      · simp only [Bool.false_eq_true, if_false, hc]
        cases conv_res with
        | error msg => simp [hc, mkPendingJob, failWith]
        | ok r =>
          by_cases hb : tf = "pdf" ∨ tf = "docx"
          · cases save_res with
            | error msg => simp [hc, hb, mkPendingJob, failWith, completeJob]
            | ok path => simp [hc, hb, mkPendingJob, failWith, completeJob]
          · simp [hc, hb, mkPendingJob, failWith, completeJob]
    | true =>
      cases read_res with
      | error msg => simp [mkPendingJob, failWith]
      | ok s =>
        by_cases hc : s = ""
        · simp [hc, mkPendingJob, failWith]
        · simp only [Bool.true_eq_false, if_true, hc]
          cases conv_res with
          | error msg => simp [hc, mkPendingJob, failWith]
          | ok r =>
            by_cases hb : tf = "pdf" ∨ tf = "docx"
            · cases save_res with
              | error msg => simp [hc, hb, mkPendingJob, failWith, completeJob]
              | ok path => simp [hc, hb, mkPendingJob, failWith, completeJob]
            · simp [hc, hb, mkPendingJob, failWith, completeJob]

theorem error_result_exclusive_witness :
    (completeJob (runningJob "md" "html" 90) (txtResult "h" "html"))
      ∈ convert_task_trace "md" "html" (some "# Hi") false (Except.ok "") (Except.ok "h")
          (Except.ok "p") ∧
    ((completeJob (runningJob "md" "html" 90) (txtResult "h" "html")).result ≠ none ↔
      (completeJob (runningJob "md" "html" 90) (txtResult "h" "html")).status
        = JobStatus.completed) ∧
    (mkPendingJob "md" "html")
      ∈ (convert_task_trace "md" "html" (some "# Hi") false (Except.ok "") (Except.ok "h")
          (Except.ok "p")).dropLast ∧
    (mkPendingJob "md" "html").error = none ∧ (mkPendingJob "md" "html").result = none :=
  ⟨by decide,
    ((error_result_exclusive "md" "html" (some "# Hi") false (Except.ok "") (Except.ok "h")
        (Except.ok "p")).1
      (completeJob (runningJob "md" "html" 90) (txtResult "h" "html")) (by decide)).2,
    by decide,
    ((error_result_exclusive "md" "html" (some "# Hi") false (Except.ok "") (Except.ok "h")
        (Except.ok "p")).2 (mkPendingJob "md" "html") (by decide)).1,
    ((error_result_exclusive "md" "html" (some "# Hi") false (Except.ok "") (Except.ok "h")
        (Except.ok "p")).2 (mkPendingJob "md" "html") (by decide)).2.1⟩

/-- Claim C1 counterexample: a submit call with unknown source format
`xyz` (the validation table rejects it) still creates a Job in `pending`
state and returns its id — the jobs map is changed and no synchronous
validation failure occurs, contrary to the claim. -/
theorem submit_unknown_format_creates_job :
    validate "xyz" "md" = Except.error "Unsupported source format: xyz" ∧
    (convert_async (fun _ => none) "j1" "xyz" "md").2 = "j1" ∧
    (convert_async (fun _ => none) "j1" "xyz" "md").1 "j1"
      = some (mkPendingJob "xyz" "md") ∧
    (mkPendingJob "xyz" "md").status = JobStatus.pending ∧
    (convert_async (fun _ => none) "j1" "xyz" "md").1 ≠ (fun _ => none : JobMap) := by
  refine ⟨rfl, rfl, by decide, rfl, ?_⟩
  intro h
  have h1 := congrFun h "j1"
  simp [convert_async] at h1

/-- Claim C1 amended: `submit` (`convert_async`) performs no synchronous
format validation and never fails: for every source/target format pair it
creates a Job in `pending` state under the returned id, leaves every other
entry of the jobs map unchanged, and schedules the conversion task; when
the source or target format is unknown, or the target does not support
writing, it is the background task that fails the Job, ending in status
`failed` with the validation error message at progress 10. -/
theorem submit_always_creates_pending (jobs : JobMap) (jid sf tf : String)
    (content : Option String) (use_file : Bool)
    (read_res conv_res save_res : Except String String) :
    (convert_async jobs jid sf tf).2 = jid ∧
    (convert_async jobs jid sf tf).1 jid = some (mkPendingJob sf tf) ∧
    (mkPendingJob sf tf).status = JobStatus.pending ∧
    (∀ k, k ≠ jid → (convert_async jobs jid sf tf).1 k = jobs k) ∧
    (∀ msg, validate sf tf = Except.error msg →
      (convert_task_trace sf tf content use_file read_res conv_res save_res).getLast?
        = some (failWith (runningJob sf tf 10) msg)) := by
  refine ⟨rfl, by simp [convert_async], rfl, ?_, ?_⟩
  · intro k hk
    simp [convert_async, hk]
  · intro msg hv
    simp [convert_task_trace, hv, runningJob]

theorem submit_always_creates_pending_witness :
    ("k2" : String) ≠ "j1" ∧
    validate "md" "doc" = Except.error "Cannot write to format: doc" ∧
    (convert_async (fun _ => none) "j1" "md" "doc").1 "k2" = none ∧
    (convert_task_trace "md" "doc" (some "# Hi") false (Except.ok "") (Except.ok "h")
        (Except.ok "p")).getLast?
      = some (failWith (runningJob "md" "doc" 10) "Cannot write to format: doc") :=
  ⟨by decide, rfl,
    (submit_always_creates_pending (fun _ => none) "j1" "md" "doc" (some "# Hi") false
        (Except.ok "") (Except.ok "h") (Except.ok "p")).2.2.2.1 "k2" (by decide),
    (submit_always_creates_pending (fun _ => none) "j1" "md" "doc" (some "# Hi") false
        (Except.ok "") (Except.ok "h") (Except.ok "p")).2.2.2.2
      "Cannot write to format: doc" rfl⟩

/-- Claim C2 counterexample: a concrete successful conversion run passes
through progress updates and reaches the `completed` transition, yet the
background task publishes no event at all — in particular neither a
`conversion_progress` nor a `conversion_complete` event reaches the
connection registry. -/
theorem transitions_publish_no_events :
    (convert_task_trace "md" "html" (some "# Hi") false (Except.ok "") (Except.ok "h")
        (Except.ok "p")).map Job.progress = [0, 60, 100] ∧
    ((convert_task_trace "md" "html" (some "# Hi") false (Except.ok "") (Except.ok "h")
        (Except.ok "p")).getLast?).map Job.status = some JobStatus.completed ∧
    convert_task_published_events "md" "html" (some "# Hi") false (Except.ok "")
        (Except.ok "h") (Except.ok "p") = [] := by
  exact ⟨by decide, by decide, rfl⟩

/-- Claim C2 amended: the background conversion task publishes no events
through the connection registry — its transitions are silent; the only
lifecycle event published for a conversion is the single
`conversion_started`-typed broadcast sent by the MCP `convert_document`
handler right after submission (`SSEManager.send_conversion_progress`,
`send_conversion_complete` and `send_conversion_error` exist but are never
called). -/
theorem conversion_lifecycle_events (sf tf jid : String) (content : Option String)
    (use_file : Bool) (read_res conv_res save_res : Except String String) :
    convert_task_published_events sf tf content use_file read_res conv_res save_res
      = [] ∧
    (handle_convert_document_events jid sf tf).map (fun e => e.payload.type)
      = ["conversion_started"] ∧
    (handle_convert_document_events jid sf tf).length = 1 :=
  ⟨rfl, rfl, rfl⟩
